import Mathlib

/-!
Verification of `core-futures-tls` (`src/future.rs`).

The crate stores a pointer to the current task `Context` in a thread-local
cell `TLS_CX : Cell<Option<NonNull<Context>>>`.  `set_task_context`
installs a context for the duration of a closure, `get_task_context`
takes it out for the duration of a closure, and both restore the cell
through the `SetOnDrop` guard on every exit path (normal return or an
unwinding panic).  `GenFuture::poll` resumes a wrapped generator once
inside `set_task_context`, and `poll_with_tls_context` polls a future
with the ambiently stored context.

Shallow embedding: the thread-local cell becomes explicit state of type
`Slot := Option CtxPtr` threaded through every computation; a Rust
closure that may touch the cell and may panic becomes a function
`Slot → Except Failure R × Slot`; unwinding is modelled by the `error`
branch, through which the `SetOnDrop.drop` write is applied exactly as
on the normal branch.
-/

namespace CoreFuturesTls

/-- `NonNull<Context<'static>>`: an opaque pointer to a task context,
modelled as a numeric identifier. -/
abbrev CtxPtr := Nat

/-- Content of the thread-local cell `TLS_CX`. -/
abbrev Slot := Option CtxPtr

/-- A panic unwinding out of a call: the `expect` failure in
`get_task_context`, or a panic raised by wrapped user code. -/
inductive Failure where
  | tlsNotSet : Failure
  | user : Nat → Failure
deriving DecidableEq, Repr

/-- A computation that may read and write `TLS_CX` and may panic:
Rust's control flow with the thread-local cell made explicit state. -/
abbrev Comp (R : Type) := Slot → Except Failure R × Slot

/-- `Cell::replace`: store `v` in the cell, return the previous content
(first component) together with the new cell content (second). -/
def cellReplace (v : Slot) (s : Slot) : Slot × Slot := (s, v)

/-- `struct SetOnDrop(Option<NonNull<Context<'static>>>)`. -/
structure SetOnDrop where
  val : Slot

/-- `impl Drop for SetOnDrop`: `TLS_CX.set(self.0.take())` — writes the
saved value into the cell, ignoring whatever the cell currently holds. -/
def SetOnDrop.drop (g : SetOnDrop) (_s : Slot) : Slot := g.val

/-- `core::ops::GeneratorState` with `Yield = ()` as used here. -/
inductive GeneratorState (Y R : Type) where
  | Yielded : Y → GeneratorState Y R
  | Complete : R → GeneratorState Y R
deriving DecidableEq, Repr

/-- `core::task::Poll`. -/
inductive Poll (R : Type) where
  | Pending : Poll R
  | Ready : R → Poll R
deriving DecidableEq, Repr

/-- A resumable state machine (`Generator<Yield = ()>`): `resume`
advances the explicit state `σ`, may touch the thread-local cell (code
inside an async body may use the ambient context) and may panic. -/
structure Generator (σ R : Type) where
  resume : σ → Comp (GeneratorState Unit R × σ)

/-- `set_task_context(cx, f)`: `TLS_CX.replace(Some(cx))` saving the old
content, install the `SetOnDrop` guard, run `f`; the guard fires on the
normal and on the unwinding exit path alike. -/
def set_task_context {R : Type} (cx : CtxPtr) (f : Comp R) : Comp R := fun s =>
  let p := cellReplace (some cx) s
  let reset := SetOnDrop.mk p.1
  match f p.2 with
  | (Except.ok r, s2) => (Except.ok r, reset.drop s2)
  | (Except.error e, s2) => (Except.error e, reset.drop s2)

/-- `get_task_context(f)`: `TLS_CX.replace(None)`, install the
`SetOnDrop` guard holding the taken pointer, then `expect` — panicking
when the slot was empty, with the guard firing during the unwind — and
otherwise run `f` on the pointer, the guard firing on either exit path. -/
def get_task_context {R : Type} (f : CtxPtr → Comp R) : Comp R := fun s =>
  let p := cellReplace none s
  let reset := SetOnDrop.mk p.1
  match p.1 with
  | none => (Except.error Failure.tlsNotSet, reset.drop p.2)
  | some cx_ptr =>
    match f cx_ptr p.2 with
    | (Except.ok r, s2) => (Except.ok r, reset.drop s2)
    | (Except.error e, s2) => (Except.error e, reset.drop s2)

/-- `GenFuture<T>`: a wrapper around one generator. -/
structure GenFuture (σ R : Type) where
  gen : Generator σ R

/-- `from_generator`. -/
def from_generator {σ R : Type} (g : Generator σ R) : GenFuture σ R :=
  GenFuture.mk g

/-- `<GenFuture<T> as Future>::poll`: inside `set_task_context`, resume
the wrapped generator once, mapping `Yielded(())` to `Pending` and
`Complete(x)` to `Ready(x)`; the generator's mutated state is threaded
explicitly. -/
def GenFuture.poll {σ R : Type} (fut : GenFuture σ R) (st : σ) (cx : CtxPtr) :
    Comp (Poll R × σ) :=
  set_task_context cx (fun s =>
    match fut.gen.resume st s with
    | (Except.ok (GeneratorState.Yielded _, st2), s2) =>
        (Except.ok (Poll.Pending, st2), s2)
    | (Except.ok (GeneratorState.Complete x, st2), s2) =>
        (Except.ok (Poll.Ready x, st2), s2)
    | (Except.error e, s2) => (Except.error e, s2))

/-- `poll_with_tls_context(f)`: `get_task_context(|cx| F::poll(f, cx))`,
with the future's poll function abstracted as `pollFn`. -/
def poll_with_tls_context {R : Type} (pollFn : CtxPtr → Comp R) : Comp R :=
  get_task_context (fun cx => pollFn cx)

/-- The spec's scenario state machine: suspends on its first resume,
completes with `42` on the second; its state counts resumes, so one
`poll` advancing the state by exactly one is visible in the result. -/
def gen42 : Generator Nat Nat where
  resume := fun st s =>
    if st = 0 then (Except.ok (GeneratorState.Yielded (), st + 1), s)
    else (Except.ok (GeneratorState.Complete 42, st + 1), s)

/-- A state machine whose body retrieves the ambient context through
`get_task_context` and immediately completes with the observed pointer. -/
def genObserve : Generator Unit CtxPtr where
  resume := fun _ =>
    get_task_context (fun cx_ptr s =>
      (Except.ok (GeneratorState.Complete cx_ptr, ()), s))

/-- An outer state machine that drives a nested future through
`poll_with_tls_context` (as `.await` does) and completes with the nested
poll's outcome. -/
def nestGen {σ R : Type} (gB : Generator σ R) (stB : σ) :
    Generator Unit (Poll R × σ) where
  resume := fun _ s =>
    match poll_with_tls_context
        (fun cx => GenFuture.poll (from_generator gB) stB cx) s with
    | (Except.ok pr, s2) => (Except.ok (GeneratorState.Complete pr, ()), s2)
    | (Except.error e, s2) => (Except.error e, s2)

/-! ## Helper lemmas -/

/-- `set_task_context` returns whatever its closure returns (value or
propagating panic), the closure observing the slot filled with `cx`. -/
theorem set_task_context_fst {R : Type} (cx : CtxPtr) (f : Comp R) (s : Slot) :
    (set_task_context cx f s).1 = (f (some cx)).1 := by
  unfold set_task_context
  rcases h : f (some cx) with ⟨r | e, s2⟩ <;> simp [cellReplace, h]

/-- After `set_task_context` the slot holds what it held before the
call, on the normal and on the unwinding exit path alike. -/
theorem set_task_context_snd {R : Type} (cx : CtxPtr) (f : Comp R) (s : Slot) :
    (set_task_context cx f s).2 = s := by
  unfold set_task_context
  rcases h : f (some cx) with ⟨r | e, s2⟩ <;> simp [cellReplace, h, SetOnDrop.drop]

/-- `get_task_context` on an occupied slot hands the pointer to its
closure over an emptied slot and restores the pointer afterwards. -/
theorem get_task_context_some {R : Type} (f : CtxPtr → Comp R) (p : CtxPtr) :
    get_task_context f (some p) = ((f p none).1, some p) := by
  unfold get_task_context
  rcases h : f p none with ⟨r | e, s2⟩ <;> simp [cellReplace, h, SetOnDrop.drop]

/-- `get_task_context` on an empty slot panics out of `expect` and the
guard leaves the slot empty. -/
theorem get_task_context_none {R : Type} (f : CtxPtr → Comp R) :
    get_task_context f none = (Except.error Failure.tlsNotSet, none) := rfl

/-- After `get_task_context` the slot holds what it held before the
call, whatever the closure did to it. -/
theorem get_task_context_snd {R : Type} (f : CtxPtr → Comp R) (s : Slot) :
    (get_task_context f s).2 = s := by
  cases s with
  | none => simp [get_task_context_none]
  | some p => simp [get_task_context_some]

/-! ## Claims -/

/-- C1: each `GenFuture::poll` resumes the wrapped generator exactly
once — its whole outcome is determined by the single `resume` from the
current state, the returned generator state being the one that resume
produced — with `Yielded` mapped to `Pending`, `Complete x` mapped to
`Ready x` with `x` passed through unexamined, and a propagating panic
passed on; and in the concrete scenario of a machine that suspends once
then completes with `42`, the first poll returns `Pending`, the second
`Ready 42`, the slot equalling its pre-call state after each. -/
theorem genFuture_poll_resumes_once_and_maps_outcome :
    (∀ (σ R : Type) (g : Generator σ R) (st : σ) (cx : CtxPtr) (s : Slot),
      GenFuture.poll (from_generator g) st cx s =
        ((match (g.resume st (some cx)).1 with
          | Except.ok (GeneratorState.Yielded _, st2) => Except.ok (Poll.Pending, st2)
          | Except.ok (GeneratorState.Complete x, st2) => Except.ok (Poll.Ready x, st2)
          | Except.error e => Except.error e), s))
    ∧ GenFuture.poll (from_generator gen42) 0 7 (some 3) =
        (Except.ok (Poll.Pending, 1), some 3)
    ∧ GenFuture.poll (from_generator gen42) 1 7 (some 3) =
        (Except.ok (Poll.Ready 42, 2), some 3) := by
  refine ⟨?_, rfl, rfl⟩
  intro σ R g st cx s
  unfold GenFuture.poll from_generator set_task_context cellReplace
  rcases h : g.resume st (some cx) with ⟨r, s2⟩
  cases r with
  | ok v =>
    rcases v with ⟨ys, st2⟩
    cases ys <;> simp [h, SetOnDrop.drop]
  | error e => simp [h, SetOnDrop.drop]

/-- C2: on every call to `set_task_context` the guard fires before the
call returns on every exit path — the closure returning normally or
propagating a panic — restoring the slot to exactly its pre-call
content, while the closure's own outcome (value or panic) is passed
through. -/
theorem setTaskContext_guard_fires_on_every_exit :
    ∀ (R : Type) (cx : CtxPtr) (f : Comp R) (s : Slot),
      (set_task_context cx f s).2 = s ∧
      (set_task_context cx f s).1 = (f (some cx)).1 :=
  fun _ cx f s => ⟨set_task_context_snd cx f s, set_task_context_fst cx f s⟩

/-- C3: `get_task_context` invoked while the slot is empty always fails
with the fatal `expect` panic, deterministically, and never returns a
value. -/
theorem getTaskContext_empty_slot_always_panics :
    ∀ (R : Type) (f : CtxPtr → Comp R),
      (get_task_context f none).1 = Except.error Failure.tlsNotSet ∧
      ∀ v : R, (get_task_context f none).1 ≠ Except.ok v := by
  intro R f
  simp [get_task_context_none]

/-- C4: nesting round-trip — when adapter A's poll with context `cx`
internally drives a nested adapter B through `poll_with_tls_context`,
after both polls return the slot holds exactly its content from before
A's poll (first conjunct, for every nested machine B); B's body observes
`cx` as the ambient context (second conjunct: the nested machine that
retrieves the ambient pointer completes with `cx`); and the inner
take/restore is fully unwound — the slot again holding `some cx` —
before A's own frame resumes (third conjunct). -/
theorem nested_poll_lifo_roundtrip :
    (∀ (σ R : Type) (gB : Generator σ R) (stB : σ) (cx : CtxPtr) (s : Slot),
      (GenFuture.poll (from_generator (nestGen gB stB)) () cx s).2 = s)
    ∧ (∀ (cx : CtxPtr) (s : Slot),
      GenFuture.poll (from_generator (nestGen genObserve ())) () cx s =
        (Except.ok (Poll.Ready (Poll.Ready cx, ()), ()), s))
    ∧ (∀ (cx : CtxPtr),
      poll_with_tls_context
          (fun c => GenFuture.poll (from_generator genObserve) () c) (some cx) =
        (Except.ok (Poll.Ready cx, ()), some cx)) := by
  refine ⟨?_, ?_, ?_⟩
  · intro σ R gB stB cx s
    exact set_task_context_snd ..
  · intro cx s
    rfl
  · intro cx
    rfl

/-- C5: `get_task_context` clears the slot for the duration of its
closure — the closure runs over an emptied slot — and restores it
immediately after; hence a second take attempted while the first guard
has not yet fired observes the empty slot and hits the fatal
protocol-violation path. -/
theorem getTaskContext_at_most_one_occupant :
    (∀ (R : Type) (f : CtxPtr → Comp R) (p : CtxPtr),
      get_task_context f (some p) = ((f p none).1, some p))
    ∧ (∀ (R : Type) (g : CtxPtr → CtxPtr → Comp R) (p : CtxPtr),
      get_task_context (fun q => get_task_context (g q)) (some p) =
        (Except.error Failure.tlsNotSet, some p)) := by
  refine ⟨fun R f p => get_task_context_some f p, ?_⟩
  intro R g p
  simp [get_task_context_some, get_task_context_none]

/-- C6: `poll_with_tls_context` is exactly `get_task_context` composed
with the future's poll: the two functions are equal, and on an occupied
slot the installed pointer is forwarded into the poll function, whose
result is returned unchanged. -/
theorem pollWithTlsContext_is_retrieve_then_poll :
    (∀ (R : Type) (pollFn : CtxPtr → Comp R),
      poll_with_tls_context pollFn = get_task_context pollFn)
    ∧ (∀ (R : Type) (pollFn : CtxPtr → Comp R) (p : CtxPtr),
      poll_with_tls_context pollFn (some p) = ((pollFn p none).1, some p)) :=
  ⟨fun _ _ => rfl, fun _ pollFn p => get_task_context_some pollFn p⟩

/-- C7: installing a context unconditionally overwrites the slot for
every prior state (occupied or empty), yields the previous occupant,
never fails — the closure always runs, over the newly installed
pointer — and the previous occupant is held and written back on exit. -/
theorem install_unconditionally_overwrites :
    ∀ (R : Type) (cx : CtxPtr) (f : Comp R) (s : Slot),
      cellReplace (some cx) s = (s, some cx) ∧
      (set_task_context cx f s).1 = (f (some cx)).1 ∧
      (set_task_context cx f s).2 = (cellReplace (some cx) s).1 :=
  fun _ cx f s => ⟨rfl, set_task_context_fst cx f s, set_task_context_snd cx f s⟩

/-- C9: on exit `get_task_context` restores the originally removed
pointer unconditionally, overwriting whatever its closure left in the
slot — concretely, a closure that plants `some 99` and never removes it
still leaves the slot holding the entry-time `some 5` after the call. -/
theorem getTaskContext_restore_overwrites_leftovers :
    (∀ (R : Type) (f : CtxPtr → Comp R) (s : Slot),
      (get_task_context f s).2 = s)
    ∧ get_task_context (fun _ _ => (Except.ok 0, some 99)) (some 5) =
        ((Except.ok 0 : Except Failure Nat), some 5) :=
  ⟨fun _ f s => get_task_context_snd f s, rfl⟩

/-- C10: the protocol-violation failure is atomic — when
`get_task_context` panics on an empty slot, the guard (installed before
the emptiness check) writes the taken `none` back, so the slot is still
empty after the panic propagates. -/
theorem getTaskContext_panic_leaves_slot_empty :
    ∀ (R : Type) (f : CtxPtr → Comp R),
      get_task_context f none = (Except.error Failure.tlsNotSet, none) :=
  fun _ f => get_task_context_none f

end CoreFuturesTls
